import Mathlib

/-!
Verification of the namelistica canvas export pipeline.

Shallow embedding of the export pipeline of the namelistica repository:
the GIF encoder (`src/utils/gifEncoder.js`), the canvas reference resolver
(`src/utils/canvasReferenceResolver.js`), the export managers
(`ExportManager` and the comprehensive `CanvasExportSystem`), the
frame-capture loops (`enhancedGifExporter.js`, `realGifExporter.js`,
`CanvasRecorder`), and the recording-strategy selector.

JavaScript numbers are modelled as exact rationals together with an
explicit binary64 round-to-nearest-even operation (`rat64`) where the
source's floating-point rounding is observable; byte arrays are `List ℕ`
of values `< 256`; exceptions are `Except String`; the duck-typed object
graph consumed by the resolver is modelled as a heap of records addressed
by natural-number references, so that self-referential wrappers are
expressible.
-/

namespace Namelistica

/-! ## GIF encoder (`src/utils/gifEncoder.js`, class `GIFEncoder`) -/

/-- `stringToBytes(str)`: char codes of the string (gifEncoder.js line 338). -/
def stringToBytes (s : String) : List ℕ :=
  s.data.map Char.toNat

/-- `uint16ToBytes(value)`: little-endian 16-bit split
`[value & 0xFF, (value >> 8) & 0xFF]` (gifEncoder.js line 342). -/
def uint16ToBytes (value : ℕ) : List ℕ :=
  [value % 256, (value / 256) % 256]

/-- `generateWebSafeColorTable()` (gifEncoder.js lines 312-333): one
transparent entry, the 6×6×6 colour cube, padded with zeros to
768 bytes (256 entries × 3). -/
def generateWebSafeColorTable : List ℕ :=
  let colors :=
    [0, 0, 0] ++
      (List.range 6).flatMap (fun r =>
        (List.range 6).flatMap (fun g =>
          (List.range 6).flatMap (fun b =>
            [r * 51, g * 51, b * 51])))
  colors ++ List.replicate (768 - colors.length) 0

/-- One pixel of `quantizeColors` (gifEncoder.js lines 192-206): alpha below
the transparency threshold maps to transparent index 0, otherwise to the
6-6-6 colour-cube index `r/51*36 + g/51*6 + b/51 + 1`. -/
def quantizePixel (threshold r g b a : ℕ) : ℕ :=
  if a < threshold then 0
  else r / 51 * 36 + g / 51 * 6 + b / 51 + 1

/-- `quantizeColors(pixelData)` (gifEncoder.js lines 189-210): walk the flat
RGBA byte array in strides of 4, producing one palette index per pixel.
(`ImageData` byte arrays always have length a multiple of 4.) -/
def quantizeColors (threshold : ℕ) : List ℕ → List ℕ
  | r :: g :: b :: a :: rest => quantizePixel threshold r g b a :: quantizeColors threshold rest
  | _ => []

/-- `lzwCompress(data)` (gifEncoder.js lines 294-307): the indexed pixel
data is cut into chunks of at most 255 bytes, each emitted as a length
byte followed by the chunk itself. -/
def lzwCompress (data : List ℕ) : List ℕ :=
  if h : data = [] then []
  else
    (data.take 255).length :: (data.take 255 ++ lzwCompress (data.drop 255))
termination_by data.length
decreasing_by
  have hl : 0 < data.length := List.length_pos.mpr h
  simp only [List.length_drop]
  omega

/-- `encodeFrame(frameData, delay)` (gifEncoder.js lines 265-289): graphic
control extension, image descriptor, then the LZW minimum code size byte,
the block-chunked pixel data and the block terminator. -/
def encodeFrame (width height : ℕ) (frameData : List ℕ) (delay : ℕ) : List ℕ :=
  ([0x21, 0xF9, 0x04, 0x04] ++ uint16ToBytes (delay / 10) ++ [0x00, 0x00]) ++
  ([0x2C] ++ uint16ToBytes 0 ++ uint16ToBytes 0 ++
    uint16ToBytes width ++ uint16ToBytes height ++ [0x00]) ++
  ([0x08] ++ lzwCompress frameData ++ [0x00])

/-- Mutable state of a `GIFEncoder` instance: captured (already quantized)
frames, their delays, and the dimensions fixed by the first frame. -/
structure EncoderState where
  frames : List (List ℕ)
  delays : List ℕ
  width : ℕ
  height : ℕ
  deriving Repr, DecidableEq

/-- A freshly constructed encoder (gifEncoder.js lines 11-24). -/
def EncoderState.init : EncoderState :=
  { frames := [], delays := [], width := 0, height := 0 }

/-- The `ImageData` extracted from a canvas: dimensions plus the flat RGBA
byte array. -/
structure ImageData where
  width : ℕ
  height : ℕ
  data : List ℕ
  deriving Repr, DecidableEq

/-- `addFrameFromCanvas(canvas, {delay})` after image-data extraction
(gifEncoder.js lines 29-63): the first frame fixes the encoder dimensions;
a later frame whose dimensions differ raises
`Frame dimensions mismatch` before anything is appended; otherwise the
quantized frame and its delay are appended. -/
def addFrameFromCanvas (st : EncoderState) (img : ImageData) (delay : ℕ) :
    Except String EncoderState :=
  let st1 := if st.frames = []
    then { st with width := img.width, height := img.height }
    else st
  if img.width ≠ st1.width ∨ img.height ≠ st1.height then
    .error ("Frame dimensions mismatch: expected " ++ toString st1.width ++ "x" ++
      toString st1.height ++ ", got " ++ toString img.width ++ "x" ++ toString img.height)
  else
    .ok { st1 with
      frames := st1.frames ++ [quantizeColors 128 img.data],
      delays := st1.delays ++ [delay] }

/-- `generateGIF()` (gifEncoder.js lines 215-260): error on zero frames;
otherwise the GIF89a signature, logical screen descriptor, 256-entry
global colour table, Netscape looping extension, the encoded frames in
order and the single trailer byte 0x3B. -/
def generateGIF (st : EncoderState) : Except String (List ℕ) :=
  if st.frames = [] then .error "No frames to encode"
  else .ok (
    stringToBytes "GIF89a" ++
    (uint16ToBytes st.width ++ uint16ToBytes st.height ++ [0xF7, 0x00, 0x00]) ++
    generateWebSafeColorTable ++
    ([0x21, 0xFF, 0x0B] ++ stringToBytes "NETSCAPE2.0" ++ [0x03, 0x01, 0x00, 0x00, 0x00]) ++
    ((st.frames.zip st.delays).flatMap fun fd => encodeFrame st.width st.height fd.1 fd.2) ++
    [0x3B])

/-! ## Canvas reference resolver (`src/utils/canvasReferenceResolver.js`)

The resolver consumes arbitrary duck-typed JavaScript objects, possibly
self-referential.  We model the object graph as a heap of records indexed
by natural-number references; a JS value fed to the resolver is `none`
(null/undefined) or `some r` (an object).  Option-valued fields are `none`
when the property is absent or falsy.  The recursion of
`resolveCanvasReference`/`performResolution` is not structurally
terminating on cyclic heaps, so both are given a fuel parameter: a `none`
answer means the recursion has not completed within `fuel` unwrap steps. -/

/-- Heap address of a JavaScript object. -/
abbrev Ref := ℕ

/-- Which concrete drawable class an object is an instance of, if any. -/
inductive CanvasKind where
  | htmlCanvas
  | offscreenCanvas
  | plain
  deriving DecidableEq, Repr

/-- A duck-typed JavaScript object as probed by the resolver.
`hasCurrentField` records `'current' in obj` for the case where the
`current` property exists but holds a falsy value; `getCanvasRefCurrent`
is `some c?` when a `getCanvasRef` method exists and `c?` is the
(optional) `current` of its return value; `isValidCanvasRet` is the
return value of an `isValidCanvas` method when present;
`querySelectorCanvas` is `some c?` when the object has a `querySelector`
method and `c?` is the result of `querySelector('canvas')`;
`isWebGLContext`/`is2DContext` collapse the source's context-shape probes
(`drawArrays`/`drawElements`/`fillRect`). -/
structure JSObj where
  kind : CanvasKind := .plain
  width : ℕ := 0
  height : ℕ := 0
  hasCurrentField : Bool := false
  current : Option Ref := none
  canvas : Option Ref := none
  canvasElement : Option Ref := none
  domElement : Option Ref := none
  ctorName : Option String := some "Object"
  isWebGLRenderer : Bool := false
  isWebGLContext : Bool := false
  is2DContext : Bool := false
  getCanvasRefCurrent : Option (Option Ref) := none
  isValidCanvasRet : Option Bool := none
  querySelectorCanvas : Option (Option Ref) := none
  arrayLength : ℕ := 0
  elem0 : Option Ref := none
  deriving DecidableEq, Repr

/-- The object heap.  Total: every reference denotes an object. -/
abbrev Heap := Ref → JSObj

/-- The source's resolution result `{success, canvas, type, error}`
(`type` is renamed `rtype`, being a Lean keyword). -/
structure ResolutionResult where
  success : Bool
  canvas : Option Ref
  rtype : String
  error : Option String
  deriving DecidableEq, Repr

/-- `isReactRef(obj)` (canvasReferenceResolver.js lines 197-203):
`'current' in obj && !obj.canvas && !obj.canvasElement`. -/
def isReactRef (o : JSObj) : Bool :=
  (o.hasCurrentField || o.current.isSome) && o.canvas.isNone && o.canvasElement.isNone

/-- `isThreeJSRenderer(obj)` (lines 205-211). -/
def isThreeJSRenderer (heap : Heap) (o : JSObj) : Bool :=
  match o.domElement with
  | some d => (heap d).kind == .htmlCanvas &&
      (o.ctorName == some "WebGLRenderer" || o.isWebGLRenderer)
  | none => false

/-- `isCanvasContext(obj)` (lines 213-231). -/
def isCanvasContext (o : JSObj) : Bool :=
  o.canvas.isSome && (o.isWebGLContext || o.is2DContext)

/-- One cached entry of the resolver cache (lines 273-276). -/
structure CacheEntry where
  result : ResolutionResult
  timestamp : ℕ
  deriving DecidableEq, Repr

/-- The resolver cache: a JS `Map` in insertion order. -/
abbrev Cache := List (String × CacheEntry)

/-- `Map.has`/`Map.get` combined. -/
def cacheLookup (st : Cache) (k : String) : Option CacheEntry :=
  (st.find? fun p => p.1 == k).map (·.2)

/-- `Map.delete`. -/
def cacheErase (st : Cache) (k : String) : Cache :=
  st.filter fun p => p.1 != k

/-- `Map.set`: replaces in place when the key exists, else appends. -/
def cacheSet (st : Cache) (k : String) (v : CacheEntry) : Cache :=
  if st.any fun p => p.1 == k then
    st.map fun p => if p.1 == k then (k, v) else p
  else st ++ [(k, v)]

/-- `cacheResult(key, result)` (lines 266-277): evict the oldest entry
once `maxCacheSize = 50` is reached, then store the result with the
current timestamp. -/
def cacheResult (st : Cache) (k : String) (r : ResolutionResult) (now : ℕ) : Cache :=
  let st1 := if 50 ≤ st.length then st.tail else st
  cacheSet st1 k ⟨r, now⟩

/-- `isCacheValid(cached)` (lines 279-282): younger than 5000 ms.
(`Date.now()` is nondecreasing, so truncated subtraction is exact.) -/
def isCacheValid (now : ℕ) (c : CacheEntry) : Bool :=
  now - c.timestamp < 5000

/-- `generateCacheKey(canvasInput)` (lines 236-264) for object inputs:
constructor name, a `canvas-WxH` marker for canvases, `has-current` /
`has-canvas` markers, joined by `-`, then `-` and `Date.now()`. -/
def generateCacheKey (heap : Heap) (now : ℕ) (input : Option Ref) : String :=
  match input with
  | none => "null"
  | some r =>
    let o := heap r
    let keys : List String :=
      (match o.ctorName with | some n => [n] | none => []) ++
      (if o.kind = .htmlCanvas then
        ["canvas-" ++ toString o.width ++ "x" ++ toString o.height] else []) ++
      (if o.current.isSome then ["has-current"] else []) ++
      (if o.canvas.isSome then ["has-canvas"] else [])
    String.intercalate "-" keys ++ "-" ++ toString now

/-- Fuel-indexed worker for the mutually recursive pair
`resolveCanvasReference` (mode `true`, lines 19-49, with the cache) and
`performResolution` (mode `false`, lines 54-165).  Structural recursion on
fuel keeps every application kernel-computable; `none` means the fuel ran
out before the source recursion returned. -/
def resolveWithFuel (heap : Heap) :
    ℕ → Bool → Cache → ℕ → Option Ref → Option (ResolutionResult × Cache)
  | 0, _, _, _, _ => none
  | fuel + 1, true, st, now, input =>
    -- resolveCanvasReference(canvasInput)
    match input with
    | none => some (⟨false, none, "", some "Canvas input is null or undefined"⟩, st)
    | some _ =>
      let key := generateCacheKey heap now input
      match cacheLookup st key with
      | some cached =>
        if isCacheValid now cached then some (cached.result, st)
        else
          match resolveWithFuel heap fuel false (cacheErase st key) now input with
          | none => none
          | some (result, st2) =>
            some (result, if result.success then cacheResult st2 key result now else st2)
      | none =>
        match resolveWithFuel heap fuel false st now input with
        | none => none
        | some (result, st2) =>
          some (result, if result.success then cacheResult st2 key result now else st2)
  | fuel + 1, false, st, now, input =>
    -- performResolution(canvasInput)
    match input with
    | none =>
      -- reading `.current` off null throws; the catch-all returns an error result
      some (⟨false, none, "error", some "Resolution error"⟩, st)
    | some r =>
      let o := heap r
      if o.kind = .htmlCanvas then some (⟨true, some r, "html-canvas", none⟩, st)
      else if o.kind = .offscreenCanvas then some (⟨true, some r, "offscreen-canvas", none⟩, st)
      else if isReactRef o then
        -- resolveReactRef(refObject) (lines 170-192)
        match o.current with
        | none => some (⟨false, none, "react-ref-null", some "React ref current is null"⟩, st)
        | some c =>
          if (heap c).kind = .htmlCanvas then
            some (⟨true, some c, "react-ref-canvas", none⟩, st)
          else resolveWithFuel heap fuel true st now (some c)
      else if o.canvas.isSome then resolveWithFuel heap fuel true st now o.canvas
      else if o.canvasElement.isSome then resolveWithFuel heap fuel true st now o.canvasElement
      else if o.current.isSome then resolveWithFuel heap fuel true st now o.current
      else if isThreeJSRenderer heap o then some (⟨true, o.domElement, "three-renderer", none⟩, st)
      else if isCanvasContext o then some (⟨true, o.canvas, "canvas-context", none⟩, st)
      else if (o.getCanvasRefCurrent.getD none).isSome then
        resolveWithFuel heap fuel true st now (o.getCanvasRefCurrent.getD none)
      else if o.isValidCanvasRet = some true then
        resolveWithFuel heap fuel true st now
          (match o.canvas with | some c => some c | none => o.canvasElement)
      else
        match o.querySelectorCanvas with
        | some (some c) => some (⟨true, some c, "dom-child-canvas", none⟩, st)
        | _ =>
          if o.arrayLength ≠ 0 && o.elem0.isSome then
            resolveWithFuel heap fuel true st now o.elem0
          else
            some (⟨false, none, "unknown", some "Unsupported canvas reference type: object"⟩, st)

/-- `resolveCanvasReference(canvasInput)` (lines 19-49). -/
def resolveCanvasReference (heap : Heap) (fuel : ℕ) (st : Cache) (now : ℕ)
    (input : Option Ref) : Option (ResolutionResult × Cache) :=
  resolveWithFuel heap fuel true st now input

/-- `performResolution(canvasInput)` (lines 54-165). -/
def performResolution (heap : Heap) (fuel : ℕ) (st : Cache) (now : ℕ)
    (input : Option Ref) : Option (ResolutionResult × Cache) :=
  resolveWithFuel heap fuel false st now input

/-- `GIFEncoder.resolveCanvas(canvasInput)` (gifEncoder.js lines 68-97),
also fuel-indexed: it unwraps `.current` / `.canvas` / `.canvasElement`
with no depth or cycle guard. -/
def gifResolveCanvas (heap : Heap) : ℕ → Option Ref → Option (Option Ref)
  | 0, _ => none
  | fuel + 1, input =>
    match input with
    | none => some none
    | some r =>
      let o := heap r
      if o.kind = .htmlCanvas then some (some r)
      else if o.kind = .offscreenCanvas then some (some r)
      else if o.current.isSome then gifResolveCanvas heap fuel o.current
      else if o.canvas.isSome then gifResolveCanvas heap fuel o.canvas
      else if o.canvasElement.isSome then gifResolveCanvas heap fuel o.canvasElement
      else some none

/-- A self-referential wrapper: an object whose `current` field refers to
itself (`x.current === x`). -/
def selfHeap : Heap := fun _ => { kind := .plain, current := some 0 }

/-- The body of the `while (current && step < maxSteps)` loop of
`canvasDebugger.analyzeResolution` (canvas debugger module, lines
92-158) — the one place in the repository with a depth/cycle guard
(`maxSteps = 10`, `next === current` break).  First argument is the
remaining iteration budget `maxSteps - step`; returns the final `step`
counter and the `success` flag.  `debuggerNext` is the loop's
`current.current || current.canvas || current.canvasElement ||
current.domElement` chain computing the next unwrap target. -/
def debuggerNext (heap : Heap) (r : Ref) : Option Ref :=
  match (heap r).current with
  | some c => some c
  | none =>
    match (heap r).canvas with
    | some c => some c
    | none =>
      match (heap r).canvasElement with
      | some c => some c
      | none => (heap r).domElement

def analyzeResolutionAux (heap : Heap) : ℕ → Option Ref → ℕ → ℕ × Bool
  | 0, _, step => (step, false)
  | _ + 1, none, step => (step, false)
  | n + 1, some r, step =>
    if (heap r).kind = .htmlCanvas ∨ (heap r).kind = .offscreenCanvas then (step, true)
    else if debuggerNext heap r = some r then (step, false)
    else analyzeResolutionAux heap n (debuggerNext heap r) (step + 1)

/-- `canvasDebugger.analyzeResolution(canvasInput)`: the guarded loop plus
the post-loop error classification (`step`, `success`, `error`). -/
def analyzeResolution (heap : Heap) (input : Option Ref) : ℕ × Bool × Option String :=
  let sr := analyzeResolutionAux heap 10 input 0
  (sr.1, sr.2,
    if sr.2 = false ∧ 10 ≤ sr.1 then
      some "Resolution chain too deep (possible circular reference)"
    else if sr.2 = false then some "No valid canvas found in resolution chain"
    else none)

/-! ## Export managers (`ExportManager` and the comprehensive
`CanvasExportSystem`)

`ExportManager.exportGIF` (the unnamed export-manager module, lines
124-195) chains three strategies — the enhanced exporter, the standard
exporter, the frame-capture recorder — and falls back to a PNG export only
when the strategies produced no blob without throwing.  The comprehensive
`CanvasExportSystem.exportGIF` (the module also containing the export
tester, lines 816-884) runs its single GIF encode phase and on any error
falls back to `exportPNG`, tagging the result `fallback: true` with the
original error message.  Each strategy run is abstracted as its outcome:
an exception, or a (possibly absent) blob. -/

/-- A binary blob: its MIME type string and size. -/
structure Blob where
  btype : String
  size : ℕ
  deriving DecidableEq, Repr

/-- Does `hay` start with `needle`? (char-list helper for `strIncludes`). -/
def listStartsWith : List Char → List Char → Bool
  | [], _ => true
  | _ :: _, [] => false
  | c :: cs, d :: ds => c == d && listStartsWith cs ds

/-- Does `hay` contain `needle` as a contiguous run? -/
def listContains (needle : List Char) : List Char → Bool
  | [] => needle.isEmpty
  | c :: cs => listStartsWith needle (c :: cs) || listContains needle cs

/-- `hay.includes(needle)`: substring test on the underlying characters. -/
def strIncludes (hay needle : String) : Bool :=
  listContains needle.data hay.data

/-- Outcomes of the strategy attempts made by `ExportManager.exportGIF`:
each strategy either throws or yields a (possibly null) blob; `pngExport`
is the outcome `this.exportPNG` would produce. -/
structure GifStrategyRuns where
  enhanced : Except String (Option Blob)
  standard : Except String (Option Blob)
  frameCapture : Except String (Option Blob)
  pngExport : Except String Blob
  deriving Repr

/-- The result object built by `ExportManager.exportGIF` (lines 178-183):
`{blob, format, size, exportId}` — it has no fallback flag and no error
field (`exportId` is bookkeeping and omitted). -/
structure ManagerResult where
  blob : Blob
  format : String
  size : ℕ
  deriving DecidableEq, Repr

/-- `ExportManager.exportGIF` (lines 124-195), canvas resolution already
succeeded: try enhanced, then standard, then frame capture (the last not
wrapped in a `try`, so its exception escapes to the outer catch and is
rethrown); if the strategies produced no blob, fall back to `exportPNG`;
the result's format is `gif` when the blob's MIME type contains `gif`,
else `png`. -/
def exportManagerGIF (runs : GifStrategyRuns) : Except String ManagerResult :=
  let attempt : Except String (Option Blob) :=
    match runs.enhanced with
    | .ok b => .ok b
    | .error _ =>
      match runs.standard with
      | .ok b => .ok b
      | .error _ => runs.frameCapture
  match attempt with
  | .error e => .error e
  | .ok bOpt =>
    match (match bOpt with
           | some b => Except.ok b
           | none => runs.pngExport) with
    | .error e => .error e
    | .ok blob =>
      .ok { blob := blob,
            format := if strIncludes blob.btype "gif" then "gif" else "png",
            size := blob.size }

/-- The result object built by the comprehensive
`CanvasExportSystem.exportGIF`: on success `fallback` is absent (falsy for
the caller, modelled `false`); on the PNG fallback path it is `true` and
`originalError` carries the failed GIF attempt's message.  (`exportId`,
`duration` and `frameCount` are bookkeeping and omitted.) -/
structure TesterResult where
  blob : Blob
  format : String
  size : ℕ
  fallback : Bool
  originalError : Option String
  deriving DecidableEq, Repr

/-- The comprehensive `CanvasExportSystem.exportGIF` (lines 816-884),
canvas resolution already succeeded, with the frame-capture-and-encode
phase abstracted as its outcome `gifRun` and `this.exportPNG` as
`pngRun`. -/
def canvasExportSystemGIF (gifRun pngRun : Except String Blob) :
    Except String TesterResult :=
  match gifRun with
  | .ok blob =>
    .ok { blob := blob, format := "gif", size := blob.size,
          fallback := false, originalError := none }
  | .error e =>
    match pngRun with
    | .ok pblob =>
      .ok { blob := pblob, format := "png", size := pblob.size,
            fallback := true, originalError := some e }
    | .error _ => .error ("GIF export failed and PNG fallback also failed: " ++ e)

/-! ## Frame-by-frame capture loops

`EnhancedGIFExporter.recordWithFrameCapture` (enhancedGifExporter.js
lines 228-264) runs `for (i = 0; i < maxFrames; i++)` catching and
skipping per-frame extraction failures; `CanvasRecorder.captureFrame`
(lines 610-637 of the unnamed recorder module) stops recording on the
first failure.  Extraction outcomes are abstracted as an oracle
`outcomes : ℕ → Except String ℕ` giving attempt `i`'s result (frames are
opaque tokens); cancellation is not exercised (`isRecording` stays
`true`). -/

/-- The capture loop of `recordWithFrameCapture`, structurally recursive
on the number of remaining iterations: a failed extraction is logged and
skipped, the loop continues with the next frame. -/
def recordFramesAux (outcomes : ℕ → Except String ℕ) : ℕ → ℕ → List ℕ → List ℕ
  | 0, _, frames => frames
  | n + 1, i, frames =>
    match outcomes i with
    | .ok f => recordFramesAux outcomes n (i + 1) (frames ++ [f])
    | .error _ => recordFramesAux outcomes n (i + 1) frames

/-- The frames accumulated by `recordWithFrameCapture`'s loop over
`maxFrames` attempts. -/
def recordFrames (outcomes : ℕ → Except String ℕ) (maxFrames : ℕ) : List ℕ :=
  recordFramesAux outcomes maxFrames 0 []

/-- `generateGIFFromFrames(options)` (lines 308-332): error on zero
captured frames, otherwise the advanced encoder, falling back to the
simple encoder on failure (the encoders abstracted as outcomes). -/
def generateGIFFromFrames (frames : List ℕ)
    (encodeAdvanced encodeFallback : List ℕ → Except String ℕ) : Except String ℕ :=
  if frames = [] then .error "No frames captured for GIF generation"
  else
    match encodeAdvanced frames with
    | .ok blob => .ok blob
    | .error _ => encodeFallback frames

/-- `CanvasRecorder.captureFrame` (lines 610-637): each tick captures one
frame and schedules the next; the catch block calls `stopRecording()`, so
the first failed capture ends the recording with the frames collected so
far.  The first argument is the number of ticks before recording is
stopped externally. -/
def canvasRecorderCapture (outcomes : ℕ → Except String ℕ) : ℕ → ℕ → List ℕ → List ℕ
  | 0, _, frames => frames
  | budget + 1, i, frames =>
    match outcomes i with
    | .ok f => canvasRecorderCapture outcomes budget (i + 1) (frames ++ [f])
    | .error _ => frames

/-! ## JavaScript number model for the frame-count computation

`recordWithFrameCapture` computes
`maxFrames = Math.min(Math.floor(duration / (1000 / fps)), maxFrames)` in
IEEE-754 binary64 arithmetic.  JS numbers are modelled as the exact
rationals they denote, with `rat64` performing correct rounding to
nearest, ties to even, of a positive rational in the normal binary64
range (53-bit significand); all quantities in the claims stay well inside
that range, so overflow and subnormals need no model. -/

/-- Exact rational multiplication, written on `Rat.divInt` so that every
application reduces inside the kernel (`ratMul_eq_mul` bridges to `*`). -/
def ratMul (a b : ℚ) : ℚ :=
  Rat.divInt (a.num * b.num) ((a.den : ℤ) * (b.den : ℤ))

/-- Exact rational division, written on `Rat.divInt` so that every
application reduces inside the kernel (`ratDiv_eq_div` bridges to `/`). -/
def ratDiv (a b : ℚ) : ℚ :=
  Rat.divInt (a.num * (b.den : ℤ)) ((a.den : ℤ) * b.num)

/-- `log2Fuel fuel n`: `⌊log₂ n⌋` by repeated halving, fuel-bounded so
that it is structurally recursive (any `fuel ≥ log₂ n` is exact). -/
def log2Fuel : ℕ → ℕ → ℕ
  | 0, _ => 0
  | fuel + 1, n => if 2 ≤ n then log2Fuel fuel (n / 2) + 1 else 0

/-- `⌊log₂ (n/d)⌋` for positive naturals `n`, `d`, computed from the bit
lengths of `n` and `d` and one exactness test. -/
def floorLog2ND (n d : ℕ) : ℤ :=
  let e0 : ℤ := (log2Fuel n n : ℤ) - (log2Fuel d d : ℤ)
  let ok : Bool :=
    if 0 ≤ e0 then decide (d * 2 ^ e0.toNat ≤ n) else decide (d ≤ n * 2 ^ (-e0).toNat)
  if ok then e0 else e0 - 1

/-- Round a positive rational to the binary64 grid (round to nearest,
ties to even), assuming the normal range. -/
def rat64pos (q : ℚ) : ℚ :=
  let n := q.num.toNat
  let d := q.den
  let e : ℤ := floorLog2ND n d - 52
  let N : ℕ := if 0 ≤ e then n else n * 2 ^ (-e).toNat
  let D : ℕ := if 0 ≤ e then d * 2 ^ e.toNat else d
  let s := N / D
  let r := N % D
  let sig := if 2 * r < D then s else if D < 2 * r then s + 1
             else if s % 2 = 0 then s else s + 1
  if 0 ≤ e then ((sig * 2 ^ e.toNat : ℕ) : ℚ)
  else mkRat (sig : ℤ) (2 ^ (-e).toNat)

/-- Binary64 rounding of a rational (normal range). -/
def rat64 (q : ℚ) : ℚ :=
  if q = 0 then 0 else if q < 0 then -(rat64pos (-q)) else rat64pos q

/-- JS `a / b` on binary64-representable operands. -/
def jsDiv (a b : ℚ) : ℚ := rat64 (ratDiv a b)

/-- JS `a * b` on binary64-representable operands. -/
def jsMul (a b : ℚ) : ℚ := rat64 (ratMul a b)

/-- The frame count of `EnhancedGIFExporter.recordWithFrameCapture`
(enhancedGifExporter.js lines 229-233):
`frameInterval = 1000 / fps`;
`maxFrames = Math.min(Math.floor(duration / frameInterval), options.maxFrames || 120)`,
every arithmetic operation in binary64. -/
def enhancedMaxFrames (fps duration : ℚ) (maxFramesOpt : ℕ) : ℤ :=
  let frameInterval := jsDiv 1000 fps
  min (jsDiv duration frameInterval).floor
    (if maxFramesOpt = 0 then 120 else (maxFramesOpt : ℤ))

/-- The frame count of `RealGIFExporter.startRecording`
(realGifExporter.js line 22): `Math.floor((duration / 1000) * fps)` in
binary64 (the `maxFrames = 120` field is overwritten, not a cap). -/
def realMaxFrames (fps duration : ℚ) : ℤ :=
  (jsMul (jsDiv duration 1000) fps).floor

/-! ## Recording-strategy selection
(`EnhancedGIFExporter.selectRecordingStrategy`, enhancedGifExporter.js
lines 76-102) -/

/-- The environment capability set probed through
`environmentDetector.isSupported`. -/
structure Capabilities where
  mediaRecorder : Bool
  captureStream : Bool
  webCodecs : Bool
  videoEncoder : Bool
  deriving DecidableEq, Repr

/-- The ordered strategy list built by `selectRecordingStrategy`:
`media-recorder` when MediaRecorder and stream capture are available on an
HTML canvas, `web-codecs` when the WebCodecs encoder is available,
`frame-capture` always pushed last, and `webgl-optimized` unshifted to the
front for WebGL contexts. -/
def selectRecordingStrategies (caps : Capabilities) (canvasType : String) : List String :=
  let strategies :=
    (if caps.mediaRecorder && caps.captureStream && canvasType == "html-canvas"
      then ["media-recorder"] else []) ++
    (if caps.webCodecs && caps.videoEncoder then ["web-codecs"] else []) ++
    ["frame-capture"]
  if canvasType == "webgl-context" then "webgl-optimized" :: strategies else strategies

/-- `selectRecordingStrategy` returns `strategies[0] || 'frame-capture'`. -/
def selectRecordingStrategy (caps : Capabilities) (canvasType : String) : String :=
  (selectRecordingStrategies caps canvasType).headD "frame-capture"

/-! ## Bridging lemmas for the number model -/

/-- `ratMul` is exact rational multiplication. -/
theorem ratMul_eq_mul (a b : ℚ) : ratMul a b = a * b := by
  rw [ratMul, Rat.mul_eq_mkRat, Rat.mkRat_eq_divInt, Nat.cast_mul]

/-- `ratDiv` is exact rational division. -/
theorem ratDiv_eq_div (a b : ℚ) : ratDiv a b = a / b := by
  rw [ratDiv, Rat.div_def']

/-! ## Helper lemmas -/

/-- A colour-cube coordinate of a byte is at most 5. -/
theorem byte_div51_le (r : ℕ) (h : r < 256) : r / 51 ≤ 5 := by
  have h5 : (255 : ℕ) / 51 = 5 := by norm_num
  calc r / 51 ≤ 255 / 51 := Nat.div_le_div_right (by omega)
    _ = 5 := h5

/-- Every value emitted by `quantizeColors` on byte input is either the
transparent index 0 or a cube index in `1..216`. -/
theorem quantizeColors_mem (l : List ℕ) (hl : ∀ x ∈ l, x < 256) :
    ∀ v ∈ quantizeColors 128 l, v < 256 ∧ (v = 0 ∨ (1 ≤ v ∧ v ≤ 216)) :=
  match l, hl with
  | [], _ => by simp [quantizeColors]
  | [_], _ => by simp [quantizeColors]
  | [_, _], _ => by simp [quantizeColors]
  | [_, _, _], _ => by simp [quantizeColors]
  | r :: g :: b :: a :: rest, hl => by
    have ih := quantizeColors_mem rest (fun x hx => hl x (by simp [hx]))
    intro v hv
    rw [show quantizeColors 128 (r :: g :: b :: a :: rest) =
        quantizePixel 128 r g b a :: quantizeColors 128 rest from rfl] at hv
    rcases List.mem_cons.mp hv with h | h
    · subst h
      have hr : r / 51 ≤ 5 := byte_div51_le r (hl r (by simp))
      have hg : g / 51 ≤ 5 := byte_div51_le g (hl g (by simp))
      have hb : b / 51 ≤ 5 := byte_div51_le b (hl b (by simp))
      unfold quantizePixel
      split
      · omega
      · constructor
        · omega
        · right
          omega
    · exact ih v h

/-- `recordFramesAux` collects exactly the successful extraction outcomes,
in order: a failed attempt is skipped, the loop continues. -/
theorem recordFramesAux_eq (outcomes : ℕ → Except String ℕ) :
    ∀ (n i : ℕ) (fr : List ℕ),
      recordFramesAux outcomes n i fr =
        fr ++ (List.range' i n).filterMap fun j => (outcomes j).toOption := by
  intro n
  induction n with
  | zero => intro i fr; simp [recordFramesAux]
  | succ m ih =>
    intro i fr
    rw [List.range'_succ]
    cases h : outcomes i with
    | ok f =>
      rw [show recordFramesAux outcomes (m + 1) i fr =
          recordFramesAux outcomes m (i + 1) (fr ++ [f]) by rw [recordFramesAux, h]]
      rw [ih]
      simp [h, Except.toOption]
    | error e =>
      rw [show recordFramesAux outcomes (m + 1) i fr =
          recordFramesAux outcomes m (i + 1) fr by rw [recordFramesAux, h]]
      rw [ih]
      simp [h, Except.toOption]

/-- With every extraction succeeding, the capture loop yields exactly one
frame per attempt. -/
theorem recordFrames_length (outcomes : ℕ → Except String ℕ) (m : ℕ)
    (h : ∀ i, (outcomes i).toOption.isSome) : (recordFrames outcomes m).length = m := by
  rw [recordFrames, recordFramesAux_eq]
  have hlen : ∀ L : List ℕ, (L.filterMap fun j => (outcomes j).toOption).length = L.length := by
    intro L
    induction L with
    | nil => simp
    | cons x xs ih =>
      obtain ⟨v, hv⟩ := Option.isSome_iff_exists.mp (h x)
      simp [List.filterMap_cons, hv, ih]
  simp [hlen]

/-! ## Claim theorems -/

/-- **C3.**  GIF encoding rejects malformed frame sets: `generateGIF`
raises an error when zero frames have been added, and `addFrameFromCanvas`
raises an error when a later frame's dimensions differ from the first
frame's, returning no new encoder state — the mismatched frame is never
appended, so no partial output can be emitted. -/
theorem gif_rejects_malformed_frame_sets :
    (∀ st : EncoderState, st.frames = [] →
      generateGIF st = .error "No frames to encode") ∧
    (∀ (st : EncoderState) (img : ImageData) (delay : ℕ),
      st.frames ≠ [] → (img.width ≠ st.width ∨ img.height ≠ st.height) →
      (∃ msg, addFrameFromCanvas st img delay = .error msg) ∧
      ∀ st', addFrameFromCanvas st img delay ≠ .ok st') := by
  constructor
  · intro st h
    simp [generateGIF, h]
  · intro st img delay hne hdim
    have hres : addFrameFromCanvas st img delay =
        .error ("Frame dimensions mismatch: expected " ++ toString st.width ++ "x" ++
          toString st.height ++ ", got " ++ toString img.width ++ "x" ++
          toString img.height) := by
      simp only [addFrameFromCanvas, if_neg hne]
      rw [if_pos hdim]
    exact ⟨⟨_, hres⟩, fun st' hok => by rw [hok] at hres; exact Except.noConfusion hres⟩

/-- **C3 witness.**  A fresh encoder rejects `generateGIF`, and an encoder
holding one 2×2 frame rejects a 3×2 frame. -/
theorem gif_rejects_malformed_frame_sets_witness :
    generateGIF EncoderState.init = .error "No frames to encode" ∧
    ∃ msg, addFrameFromCanvas ⟨[[0]], [100], 2, 2⟩ ⟨3, 2, []⟩ 100 = .error msg :=
  ⟨gif_rejects_malformed_frame_sets.1 EncoderState.init rfl,
   (gif_rejects_malformed_frame_sets.2 ⟨[[0]], [100], 2, 2⟩ ⟨3, 2, []⟩ 100
     (by decide) (Or.inl (by decide))).1⟩

set_option maxRecDepth 8000 in
/-- **C4.**  For every non-empty frame set, `generateGIF` produces the
GIF89a signature bytes `47 49 46 38 39 61`, then the logical screen
descriptor, the 768-byte (256 × 3) global colour table, the Netscape loop
extension, then per frame a graphic control extension, an image
descriptor, and block-chunked image data, and the final byte is the
trailer `0x3B`. -/
theorem gif_binary_layout (st : EncoderState) (h : st.frames ≠ []) :
    ∃ bytes, generateGIF st = .ok bytes ∧
      bytes.take 6 = [0x47, 0x49, 0x46, 0x38, 0x39, 0x61] ∧
      generateWebSafeColorTable.length = 768 ∧
      bytes =
        [0x47, 0x49, 0x46, 0x38, 0x39, 0x61] ++
        (uint16ToBytes st.width ++ uint16ToBytes st.height ++ [0xF7, 0x00, 0x00]) ++
        generateWebSafeColorTable ++
        ([0x21, 0xFF, 0x0B] ++ stringToBytes "NETSCAPE2.0" ++ [0x03, 0x01, 0x00, 0x00, 0x00]) ++
        ((st.frames.zip st.delays).flatMap fun fd =>
          encodeFrame st.width st.height fd.1 fd.2) ++
        [0x3B] ∧
      (∀ f d, encodeFrame st.width st.height f d =
        ([0x21, 0xF9, 0x04, 0x04] ++ uint16ToBytes (d / 10) ++ [0x00, 0x00]) ++
        ([0x2C, 0x00, 0x00, 0x00, 0x00] ++ uint16ToBytes st.width ++
          uint16ToBytes st.height ++ [0x00]) ++
        ([0x08] ++ lzwCompress f ++ [0x00])) ∧
      bytes.getLast? = some 0x3B := by
  have hsig : stringToBytes "GIF89a" = [0x47, 0x49, 0x46, 0x38, 0x39, 0x61] := by decide
  refine ⟨[0x47, 0x49, 0x46, 0x38, 0x39, 0x61] ++
    (uint16ToBytes st.width ++ uint16ToBytes st.height ++ [0xF7, 0x00, 0x00]) ++
    generateWebSafeColorTable ++
    ([0x21, 0xFF, 0x0B] ++ stringToBytes "NETSCAPE2.0" ++ [0x03, 0x01, 0x00, 0x00, 0x00]) ++
    ((st.frames.zip st.delays).flatMap fun fd =>
      encodeFrame st.width st.height fd.1 fd.2) ++
    [0x3B], ?_, ?_, by decide, rfl, ?_, ?_⟩
  · simp [generateGIF, h, hsig]
  · rfl
  · intro f d
    have h0 : uint16ToBytes 0 = [0x00, 0x00] := by decide
    simp [encodeFrame, h0]
  · simp only [← List.append_assoc]
    exact List.getLast?_concat _

set_option maxRecDepth 8000 in
/-- **C4 witness.**  The layout at a concrete one-frame encoder state. -/
theorem gif_binary_layout_witness :
    ∃ bytes, generateGIF ⟨[[1]], [100], 1, 1⟩ = .ok bytes ∧
      bytes.take 6 = [0x47, 0x49, 0x46, 0x38, 0x39, 0x61] ∧
      bytes.getLast? = some 0x3B := by
  obtain ⟨bytes, h1, h2, _, _, _, h6⟩ := gif_binary_layout ⟨[[1]], [100], 1, 1⟩ (by decide)
  exact ⟨bytes, h1, h2, h6⟩

set_option maxRecDepth 8000 in
/-- **C6.**  Every indexed pixel value produced by the quantization step
is a valid index into the 256-entry global palette: a pixel whose alpha is
below the threshold 128 maps to the transparent index 0, every other
pixel maps to a colour-cube index in `1..216`, hence every index is below
256 and the colour table holds exactly 256 entries (768 bytes). -/
theorem quantized_indices_valid :
    (∀ r g b a : ℕ, r < 256 → g < 256 → b < 256 →
      (a < 128 → quantizePixel 128 r g b a = 0) ∧
      (128 ≤ a → 1 ≤ quantizePixel 128 r g b a ∧ quantizePixel 128 r g b a ≤ 216)) ∧
    (∀ l : List ℕ, (∀ x ∈ l, x < 256) →
      ∀ v ∈ quantizeColors 128 l, v < 256 ∧ (v = 0 ∨ (1 ≤ v ∧ v ≤ 216))) ∧
    generateWebSafeColorTable.length = 768 := by
  refine ⟨?_, quantizeColors_mem, by decide⟩
  intro r g b a hr hg hb
  have hr5 := byte_div51_le r hr
  have hg5 := byte_div51_le g hg
  have hb5 := byte_div51_le b hb
  unfold quantizePixel
  constructor
  · intro ha
    rw [if_pos ha]
  · intro ha
    rw [if_neg (by omega)]
    omega

/-- **C6 witness.**  An opaque white pixel maps to index 216, a
transparent pixel to 0; a concrete frame quantizes inside the palette. -/
theorem quantized_indices_valid_witness :
    (quantizePixel 128 255 255 255 255 = 0 → False) ∧
    quantizePixel 128 10 20 30 50 = 0 ∧
    ∀ v ∈ quantizeColors 128 [255, 0, 0, 255, 10, 20, 30, 50],
      v < 256 ∧ (v = 0 ∨ (1 ≤ v ∧ v ≤ 216)) := by
  refine ⟨?_, ?_, quantized_indices_valid.2.1 _ (by decide)⟩
  · have h := (quantized_indices_valid.1 255 255 255 255 (by decide) (by decide)
      (by decide)).2 (by decide)
    omega
  · exact (quantized_indices_valid.1 10 20 30 50 (by decide) (by decide)
      (by decide)).1 (by decide)

/-- **C9.**  `lzwCompress` is lossless chunked raw packing: its output is
a sequence of sub-blocks, each a length byte `n`, `1 ≤ n ≤ 255`, followed
by exactly those `n` payload bytes, and the concatenated payloads equal
the input exactly. -/
theorem lzw_block_packing (data : List ℕ) :
    ∃ chunks : List (List ℕ),
      lzwCompress data = (chunks.map fun c => c.length :: c).flatten ∧
      chunks.flatten = data ∧
      ∀ c ∈ chunks, c ≠ [] ∧ 1 ≤ c.length ∧ c.length ≤ 255 := by
  by_cases h : data = []
  · subst h
    exact ⟨[], by rw [lzwCompress]; simp, by simp, by simp⟩
  · obtain ⟨chunks, h1, h2, h3⟩ := lzw_block_packing (data.drop 255)
    refine ⟨data.take 255 :: chunks, ?_, ?_, ?_⟩
    · rw [lzwCompress]
      simp [h, h1]
    · simp [h2]
    · intro c hc
      rcases List.mem_cons.mp hc with hc | hc
      · subst hc
        have hne : data.take 255 ≠ [] := by
          simp [List.take_eq_nil_iff, h]
        have hle : (data.take 255).length ≤ 255 := by
          simp [List.length_take]
        exact ⟨hne, by
          have := List.length_pos.mpr hne
          omega, hle⟩
      · exact h3 c hc
termination_by data.length
decreasing_by
  have : 0 < data.length := List.length_pos.mpr h
  simp only [List.length_drop]
  omega

/-- On the self-referential wrapper, each resolution step maps the input
back to itself, so no amount of fuel completes the recursion (the cache
stays empty: failures are never cached and no write precedes the
recursive descent). -/
theorem resolveWithFuel_selfHeap (fuel : ℕ) :
    ∀ (mode : Bool) (now : ℕ),
      resolveWithFuel selfHeap fuel mode [] now (some 0) = none := by
  induction fuel with
  | zero => intro mode now; cases mode <;> rfl
  | succ n ih =>
    intro mode now
    cases mode
    · simp only [resolveWithFuel, selfHeap]
      simp [isReactRef, isThreeJSRenderer, isCanvasContext, ih]
    · simp only [resolveWithFuel]
      simp [cacheLookup, ih]

/-- `GIFEncoder.resolveCanvas` likewise never completes on the
self-referential wrapper. -/
theorem gifResolveCanvas_selfHeap (fuel : ℕ) :
    gifResolveCanvas selfHeap fuel (some 0) = none := by
  induction fuel with
  | zero => rfl
  | succ n ih => simp [gifResolveCanvas, selfHeap, ih]

/-- The debugger loop's step counter never exceeds its iteration budget. -/
theorem analyzeResolutionAux_le (heap : Heap) :
    ∀ (n : ℕ) (input : Option Ref) (step : ℕ),
      (analyzeResolutionAux heap n input step).1 ≤ step + n := by
  intro n
  induction n with
  | zero =>
    intro input step
    simp [analyzeResolutionAux]
  | succ m ih =>
    intro input step
    cases input with
    | none => simp [analyzeResolutionAux]
    | some r =>
      rw [analyzeResolutionAux]
      split
      · simp
      · split
        · simp
        · exact le_trans (ih _ (step + 1)) (by omega)

/-- **C1 (counterexample).**  The claim asserts that on a self-referential
wrapper the resolver terminates within the 10-hop limit and returns a
failure result.  With fuel for 30 steps — three times the claimed bound —
`resolveCanvasReference`/`performResolution` (empty cache) and
`GIFEncoder.resolveCanvas` have all still not produced any result on the
object whose `current` field is itself: there is no 10-hop guard in
either resolver. -/
theorem resolver_unwraps_beyond_ten_hops :
    resolveCanvasReference selfHeap 30 [] 0 (some 0) = none ∧
    performResolution selfHeap 30 [] 0 (some 0) = none ∧
    gifResolveCanvas selfHeap 30 (some 0) = none := by
  refine ⟨by decide, by decide, by decide⟩

/-- **C1 (amended).**  The resolver itself has no depth or cycle guard:
on a self-referential wrapper (`x.current === x`), the unwrap recursion of
`CanvasReferenceResolver.resolveCanvasReference` / `performResolution`
(from an empty cache) and of `GIFEncoder.resolveCanvas` never completes
within any step bound — in a browser it ends only through JS stack
exhaustion, not through a hop limit.  The `max 10 hops` cycle/depth guard
exists only in the diagnostic `canvasDebugger.analyzeResolution`, whose
loop is bounded by 10 steps for every heap and input and which, on the
self-referential wrapper, stops at once (cycle check) with a failure
error. -/
theorem resolver_has_no_hop_guard :
    (∀ fuel now : ℕ,
      resolveCanvasReference selfHeap fuel [] now (some 0) = none ∧
      performResolution selfHeap fuel [] now (some 0) = none ∧
      gifResolveCanvas selfHeap fuel (some 0) = none) ∧
    (∀ (heap : Heap) (input : Option Ref),
      (analyzeResolution heap input).1 ≤ 10) ∧
    analyzeResolution selfHeap (some 0) =
      (0, false, some "No valid canvas found in resolution chain") := by
  refine ⟨?_, ?_, by decide⟩
  · intro fuel now
    exact ⟨resolveWithFuel_selfHeap fuel true now, resolveWithFuel_selfHeap fuel false now,
      gifResolveCanvas_selfHeap fuel⟩
  · intro heap input
    simpa using analyzeResolutionAux_le heap 10 input 0

/-- Two distinct canvases of equal dimensions: every reference in this
heap is a separate 100×100 `HTMLCanvasElement`, so references `0` and `1`
are different objects with identical cache-key shape. -/
def twinCanvasHeap : Heap := fun _ =>
  { kind := .htmlCanvas, width := 100, height := 100,
    ctorName := some "HTMLCanvasElement" }

/-- The cache state after resolving canvas `0` at time `5`. -/
def twinCache : Cache :=
  [("HTMLCanvasElement-canvas-100x100-5",
    ⟨⟨true, some 0, "html-canvas", none⟩, 5⟩)]

/-- **C10 (counterexample).**  Resolving canvas `0` at millisecond `5`
caches its result under a key built only from shape and timestamp.
Resolving the distinct canvas `1` at the same millisecond generates the
same key, hits the cache, and returns canvas `0`'s result — while
`performResolution` called directly on canvas `1` returns canvas `1`.
The success-cache therefore does change the outcome of a resolution. -/
theorem resolver_cache_changes_outcome :
    resolveCanvasReference twinCanvasHeap 10 [] 5 (some 0) =
      some (⟨true, some 0, "html-canvas", none⟩, twinCache) ∧
    resolveCanvasReference twinCanvasHeap 10 twinCache 5 (some 1) =
      some (⟨true, some 0, "html-canvas", none⟩, twinCache) ∧
    performResolution twinCanvasHeap 10 twinCache 5 (some 1) =
      some (⟨true, some 1, "html-canvas", none⟩, twinCache) ∧
    (⟨true, some 0, "html-canvas", none⟩ : ResolutionResult) ≠
      ⟨true, some 1, "html-canvas", none⟩ := by
  refine ⟨by decide, by decide, by decide, by decide⟩

/-- **C10 (amended).**  Whenever the key generated for an object input is
not already in the cache — in particular on a fresh (empty) cache, or
whenever no earlier successful resolution shares both the key shape and
the millisecond timestamp — `resolveCanvasReference` returns exactly the
`ResolutionResult` of `performResolution` on that input; only a valid
same-key cache hit (same shape, same millisecond, within 5 s) can replace
the outcome with an earlier one. -/
theorem resolver_cache_transparent_on_miss
    (heap : Heap) (fuel now : ℕ) (st : Cache) (r : Ref)
    (h : cacheLookup st (generateCacheKey heap now (some r)) = none) :
    (resolveCanvasReference heap (fuel + 1) st now (some r)).map Prod.fst =
    (performResolution heap fuel st now (some r)).map Prod.fst := by
  rw [resolveCanvasReference, performResolution]
  rw [show resolveWithFuel heap (fuel + 1) true st now (some r) =
      (match cacheLookup st (generateCacheKey heap now (some r)) with
       | some cached =>
         if isCacheValid now cached then some (cached.result, st)
         else
           match resolveWithFuel heap fuel false
               (cacheErase st (generateCacheKey heap now (some r))) now (some r) with
           | none => none
           | some (result, st2) =>
             some (result, if result.success then
               cacheResult st2 (generateCacheKey heap now (some r)) result now else st2)
       | none =>
         match resolveWithFuel heap fuel false st now (some r) with
         | none => none
         | some (result, st2) =>
           some (result, if result.success then
             cacheResult st2 (generateCacheKey heap now (some r)) result now else st2))
    from rfl]
  rw [h]
  cases hres : resolveWithFuel heap fuel false st now (some r) with
  | none => rfl
  | some p => cases p with | mk result st2 => simp

/-- **C10 witness.**  On the empty cache the wrapper and the direct
resolution agree at a concrete canvas. -/
theorem resolver_cache_transparent_on_miss_witness :
    (resolveCanvasReference twinCanvasHeap 6 [] 5 (some 0)).map Prod.fst =
    (performResolution twinCanvasHeap 5 [] 5 (some 0)).map Prod.fst :=
  resolver_cache_transparent_on_miss twinCanvasHeap 5 5 [] 0 rfl

/-- Strategy outcomes with every GIF strategy failing while a PNG export
would succeed. -/
def allFailRuns : GifStrategyRuns :=
  { enhanced := .error "enhanced failed",
    standard := .error "standard failed",
    frameCapture := .error "frame capture failed",
    pngExport := .ok ⟨"image/png", 9⟩ }

/-- **C2 (counterexample).**  With every GIF strategy failing (throwing),
`ExportManager.exportGIF` propagates the last strategy's error instead of
returning a still-frame fallback result: no result is returned at all —
in particular none carrying a fallback marker — even though the PNG
export would have succeeded. -/
theorem export_manager_no_fallback_on_throw :
    exportManagerGIF allFailRuns = .error "frame capture failed" := rfl

/-- **C2 (amended).**  The behaviour the claim describes lives in the
comprehensive `CanvasExportSystem.exportGIF`: when the GIF phase fails it
falls back to a still PNG export and returns `format = "png"`,
`fallback = true` with the original error message preserved.  The
`ExportManager.exportGIF` named by the claim instead (i) propagates the
error when all three strategies throw (no still-frame fallback), and
(ii) reaches its PNG fallback only when the strategies return no blob
without throwing, in which case the result's format is `"png"` but the
result record carries no fallback flag and no error. -/
theorem export_fallback_behavior :
    (∀ (runs : GifStrategyRuns) (e1 e2 e3 : String),
      runs.enhanced = .error e1 → runs.standard = .error e2 →
      runs.frameCapture = .error e3 →
      exportManagerGIF runs = .error e3) ∧
    (∀ (e : String) (pblob : Blob),
      canvasExportSystemGIF (.error e) (.ok pblob) =
        .ok { blob := pblob, format := "png", size := pblob.size,
              fallback := true, originalError := some e }) ∧
    (∀ (runs : GifStrategyRuns) (pblob : Blob),
      runs.enhanced = .ok none → runs.pngExport = .ok pblob →
      strIncludes pblob.btype "gif" = false →
      exportManagerGIF runs = .ok { blob := pblob, format := "png", size := pblob.size }) := by
  refine ⟨?_, fun e pblob => rfl, ?_⟩
  · intro runs e1 e2 e3 h1 h2 h3
    simp [exportManagerGIF, h1, h2, h3]
  · intro runs pblob h1 h2 hgif
    simp [exportManagerGIF, h1, h2, hgif]

/-- **C2 witness.**  The three behaviours at concrete outcomes. -/
theorem export_fallback_behavior_witness :
    exportManagerGIF allFailRuns = .error "frame capture failed" ∧
    canvasExportSystemGIF (.error "boom") (.ok ⟨"image/png", 9⟩) =
      .ok { blob := ⟨"image/png", 9⟩, format := "png", size := 9,
            fallback := true, originalError := some "boom" } ∧
    exportManagerGIF ⟨.ok none, .error "s", .error "f", .ok ⟨"image/png", 9⟩⟩ =
      .ok { blob := ⟨"image/png", 9⟩, format := "png", size := 9 } :=
  ⟨export_fallback_behavior.1 allFailRuns _ _ _ rfl rfl rfl,
   export_fallback_behavior.2.1 "boom" ⟨"image/png", 9⟩,
   export_fallback_behavior.2.2 ⟨.ok none, .error "s", .error "f", .ok ⟨"image/png", 9⟩⟩
     ⟨"image/png", 9⟩ rfl rfl (by decide)⟩

/-- **C5 (counterexample).**  At `fps = 30`, `durationMs = 2000`,
`maxFrames = 120`, the enhanced frame-capture path computes
`min(floor(2000 / (1000/30)), 120)` in binary64 arithmetic: `1000/30`
rounds up to `33.333333333333336`, `2000 / 33.333333333333336` rounds to
`59.99999999999999`, so the loop bound is 59 — not the claimed
`min(floor(2000/1000 · 30), 120) = 60` of exact arithmetic. -/
theorem frame_count_not_sixty :
    enhancedMaxFrames 30 2000 120 = 59 ∧
    min ⌊(2000 : ℚ) / 1000 * 30⌋ 120 = 60 ∧
    (59 : ℤ) ≠ 60 := by
  refine ⟨by decide, ?_, by decide⟩
  norm_num

/-- **C5 (amended).**  The number of frames captured by
`recordWithFrameCapture` (barring extraction failures and cancellation)
is `min(floor(durationMs / (1000/fps)), maxFrames)` computed in binary64
floating point, which at `fps = 30, durationMs = 2000, maxFrames = 120`
is 59, not 60; the `RealGIFExporter` path computes
`floor(durationMs/1000 · fps)` (60 here) and applies no `maxFrames` cap.
With every extraction succeeding, the capture loop collects exactly one
frame per attempt. -/
theorem frame_count_binary64 :
    enhancedMaxFrames 30 2000 120 = 59 ∧
    realMaxFrames 30 2000 = 60 ∧
    (∀ (outcomes : ℕ → Except String ℕ) (m : ℕ),
      (∀ i, (outcomes i).toOption.isSome) →
      (recordFrames outcomes m).length = m) :=
  ⟨by decide, by decide, recordFrames_length⟩

/-- **C5 witness.**  59 attempts with no failures capture 59 frames. -/
theorem frame_count_binary64_witness :
    (recordFrames (fun i => .ok i) 59).length = 59 :=
  frame_count_binary64.2.2 (fun i => .ok i) 59 (fun i => rfl)

/-- Extraction outcomes where only attempt 1 fails. -/
def flakyOutcomes : ℕ → Except String ℕ :=
  fun i => if i = 1 then .error "extraction failed" else .ok (10 + i)

/-- **C7 (counterexample).**  The claim says a single extraction failure
is skipped and the capture loop continues with the next frame; the
repository has two frame-by-frame capture loops and
`CanvasRecorder.captureFrame` does not continue: with outcomes
`[ok 10, error, ok 12]` it stops at the failure and keeps only `[10]`,
whereas the skip-and-continue loop of the enhanced exporter collects
`[10, 12]`. -/
theorem canvas_recorder_stops_on_failure :
    canvasRecorderCapture flakyOutcomes 3 0 [] = [10] ∧
    recordFramesAux flakyOutcomes 3 0 [] = [10, 12] ∧
    ([10] : List ℕ) ≠ [10, 12] := by
  refine ⟨by decide, by decide, by decide⟩

/-- **C7 (amended).**  In `EnhancedGIFExporter.recordWithFrameCapture`, a
failed extraction is skipped and the loop continues — the collected
frames are exactly the successful outcomes in order, the collection is
empty iff every attempt failed, and `generateGIFFromFrames` raises the
no-frames error exactly on an empty collection (otherwise it encodes).
In `CanvasRecorder.captureFrame`, however, a capture failure stops the
recording immediately, keeping the frames captured so far. -/
theorem capture_skip_and_continue :
    (∀ (outcomes : ℕ → Except String ℕ) (n i : ℕ) (fr : List ℕ),
      recordFramesAux outcomes n i fr =
        fr ++ (List.range' i n).filterMap fun j => (outcomes j).toOption) ∧
    (∀ (outcomes : ℕ → Except String ℕ) (m : ℕ),
      recordFrames outcomes m = [] ↔ ∀ j < m, (outcomes j).toOption = none) ∧
    (∀ (frames : List ℕ) (eA eF : List ℕ → Except String ℕ),
      (frames = [] →
        generateGIFFromFrames frames eA eF =
          .error "No frames captured for GIF generation") ∧
      (frames ≠ [] →
        generateGIFFromFrames frames eA eF =
          match eA frames with
          | .ok b => .ok b
          | .error _ => eF frames)) ∧
    (∀ (outcomes : ℕ → Except String ℕ) (budget i : ℕ) (fr : List ℕ) (e : String),
      outcomes i = .error e →
      canvasRecorderCapture outcomes (budget + 1) i fr = fr) := by
  refine ⟨fun outcomes => recordFramesAux_eq outcomes, ?_, ?_, ?_⟩
  · intro outcomes m
    rw [recordFrames, recordFramesAux_eq]
    simp only [List.nil_append, List.filterMap_eq_nil_iff]
    constructor
    · intro h j hj
      exact h j (by simp [List.mem_range']; omega)
    · intro h j hj
      rw [List.mem_range'] at hj
      exact h j (by omega)
  · intro frames eA eF
    constructor
    · intro h
      simp [generateGIFFromFrames, h]
    · intro h
      simp [generateGIFFromFrames, h]
  · intro outcomes budget i fr e h
    simp [canvasRecorderCapture, h]

/-- **C7 witness.**  The conjuncts at concrete outcomes: the loop keeps
frames after a skipped failure, emptiness coincides with all-failed, the
zero-frame error fires exactly on the empty collection, and the
`CanvasRecorder` loop stops at a failure. -/
theorem capture_skip_and_continue_witness :
    recordFramesAux flakyOutcomes 3 0 [] =
      [] ++ (List.range' 0 3).filterMap (fun j => (flakyOutcomes j).toOption) ∧
    (recordFrames flakyOutcomes 3 = [] ↔ ∀ j < 3, (flakyOutcomes j).toOption = none) ∧
    generateGIFFromFrames [] (fun _ => .ok 0) (fun _ => .ok 0) =
      .error "No frames captured for GIF generation" ∧
    canvasRecorderCapture flakyOutcomes 1 1 [7] = [7] :=
  ⟨capture_skip_and_continue.1 flakyOutcomes 3 0 [],
   capture_skip_and_continue.2.1 flakyOutcomes 3,
   (capture_skip_and_continue.2.2.1 [] (fun _ => .ok 0) (fun _ => .ok 0)).1 rfl,
   capture_skip_and_continue.2.2.2 flakyOutcomes 0 1 [7] "extraction failed" rfl⟩

/-- **C8.**  Strategy selection is a pure function of the capability set
and canvas type — two invocations with equal inputs yield identical
ordered lists — and the universally available `frame-capture` strategy is
always present, as the final (last-resort) entry of the list. -/
theorem strategy_selection_deterministic :
    (∀ (c1 c2 : Capabilities) (t1 t2 : String), c1 = c2 → t1 = t2 →
      selectRecordingStrategies c1 t1 = selectRecordingStrategies c2 t2) ∧
    (∀ (caps : Capabilities) (t : String),
      selectRecordingStrategies caps t ≠ [] ∧
      (selectRecordingStrategies caps t).getLast? = some "frame-capture" ∧
      "frame-capture" ∈ selectRecordingStrategies caps t) := by
  constructor
  · intro c1 c2 t1 t2 hc ht
    rw [hc, ht]
  · intro caps t
    refine ⟨?_, ?_, ?_⟩
    · simp only [selectRecordingStrategies]
      split <;> simp
    · simp only [selectRecordingStrategies]
      split
      · rw [← List.cons_append, List.getLast?_concat]
      · rw [List.getLast?_concat]
    · simp only [selectRecordingStrategies]
      split <;> simp

/-- **C8 witness.**  Determinism and the last-resort entry at concrete
capability sets. -/
theorem strategy_selection_deterministic_witness :
    selectRecordingStrategies ⟨true, true, false, false⟩ "html-canvas" =
      selectRecordingStrategies ⟨true, true, false, false⟩ "html-canvas" ∧
    (selectRecordingStrategies ⟨false, false, true, true⟩ "webgl-context").getLast? =
      some "frame-capture" :=
  ⟨strategy_selection_deterministic.1 _ _ _ _ rfl rfl,
   (strategy_selection_deterministic.2 ⟨false, false, true, true⟩ "webgl-context").2.1⟩

end Namelistica
